import Mathlib

/-!
Verification of the SilentSOS gesture-alert system (`HelpMe.py`).

This file gives a shallow embedding of the three core components of the
program and proves the specification's claims about them:

* the gesture classifier `classify_gesture` (source lines 96-111);
* the alert decision engine, the per-frame state update inlined in `main`
  (source lines 182-184 and 216-228), embedded as `evaluate` / `runEngine`;
* the notification dispatcher `send_alert` (source lines 116-167), embedded
  over an explicit model of the collaborator outcomes (Twilio SMS attempt,
  WhatsApp fallback attempt, local alert cue).

Timestamps and the cooldown are modelled as rationals (the source uses
`time.time()` floats; all comparisons in the source are exact order
comparisons, so ℚ is a faithful carrier).
-/

/-- Gesture taxonomy: the closed set of labels returned by
`classify_gesture` in the source ("Kidnap Alert", "Medical Emergency",
"Distress / SOS", "Testing / V-Sign", "Call Police"). -/
inductive Gesture
  | KidnapAlert
  | MedicalEmergency
  | DistressSOS
  | TestingVSign
  | CallPolice
deriving DecidableEq, Fintype

/-- The string label the source uses for each gesture. -/
def gestureLabel : Gesture → String
  | Gesture.KidnapAlert => "Kidnap Alert"
  | Gesture.MedicalEmergency => "Medical Emergency"
  | Gesture.DistressSOS => "Distress / SOS"
  | Gesture.TestingVSign => "Testing / V-Sign"
  | Gesture.CallPolice => "Call Police"

/-- FingerState: the list `[Thumb, Index, Middle, Ring, Pinky]` produced by
`fingers_up` (1 = extended, 0 = folded), modelled as five booleans. -/
structure FingerState where
  thumb : Bool
  index : Bool
  middle : Bool
  ring : Bool
  pinky : Bool
deriving DecidableEq, Fintype

/-- Embedding of `classify_gesture` (source lines 96-111): the if/elif
chain over the five finger booleans, first match wins. -/
def classify_gesture (f : FingerState) : Option Gesture :=
  if f.thumb && f.index && !f.middle && !f.ring && !f.pinky then
    some Gesture.KidnapAlert
  else if f.index && f.middle && f.ring && !f.thumb && !f.pinky then
    some Gesture.MedicalEmergency
  else if !f.thumb && !f.index && !f.middle && !f.ring && !f.pinky then
    some Gesture.DistressSOS
  else if f.index && f.middle && !f.ring && !f.pinky then
    some Gesture.TestingVSign
  else if f.thumb && f.pinky && !f.index && !f.middle && !f.ring then
    some Gesture.CallPolice
  else
    none

/-- The 6-rule priority table of spec §4.1, written from the spec's words
(first satisfied rule wins): 1. Thumb+Index extended, others folded →
KidnapAlert; 2. Index+Middle+Ring extended, Thumb and Pinky folded →
MedicalEmergency; 3. all five folded → DistressSOS; 4. Index+Middle
extended, Ring and Pinky folded, Thumb unconstrained → TestingVSign;
5. Thumb+Pinky extended, Index/Middle/Ring folded → CallPolice;
6. otherwise no gesture. Used only to compare against `classify_gesture`. -/
def classifyPerSpecTable (f : FingerState) : Option Gesture :=
  if f.thumb && f.index && !f.middle && !f.ring && !f.pinky then
    some Gesture.KidnapAlert
  else if f.index && f.middle && f.ring && !f.thumb && !f.pinky then
    some Gesture.MedicalEmergency
  else if !f.thumb && !f.index && !f.middle && !f.ring && !f.pinky then
    some Gesture.DistressSOS
  else if f.index && f.middle && !f.ring && !f.pinky then
    some Gesture.TestingVSign
  else if f.thumb && f.pinky && !f.index && !f.middle && !f.ring then
    some Gesture.CallPolice
  else
    none

/-- AlertDecisionState: the mutable state of the decision engine in `main`
(source lines 182-183): `active_gesture = None`, `last_sms_time = 0.0`. -/
structure EngineState where
  active_gesture : Option Gesture
  last_sms_time : ℚ
deriving DecidableEq

/-- The state the source initializes before the frame loop
(`last_sms_time = 0.0`, `active_gesture = None`, source lines 182-183). -/
def initState : EngineState := ⟨none, 0⟩

/-- Fire decision of one frame: `Fire(gesture)` or `NoOp`. -/
inductive Decision
  | noOp
  | fire (g : Gesture)
deriving DecidableEq

/-- True exactly on a `fire` decision. -/
def Decision.isFire : Decision → Bool
  | Decision.noOp => false
  | Decision.fire _ => true

/-- One frame of the decision engine (source lines 216-228):

```
if gesture_detected and (gesture_detected != active_gesture)
    and (now - last_sms_time) > SMS_COOLDOWN:
    active_gesture = gesture_detected
    last_sms_time = now
    ... fire ...
if not gesture_detected:
    active_gesture = None
```

The nested ifs mirror Python's short-circuit `and`. -/
def evaluate (s : EngineState) (detected : Option Gesture) (now cooldown : ℚ) :
    EngineState × Decision :=
  match detected with
  | none => (⟨none, s.last_sms_time⟩, Decision.noOp)
  | some g =>
      if some g = s.active_gesture then (s, Decision.noOp)
      else if cooldown < now - s.last_sms_time then (⟨some g, now⟩, Decision.fire g)
      else (s, Decision.noOp)

/-- Running the decision engine over a whole frame sequence: returns the
final state and the list of fires `(timestamp, gesture)` in frame order. -/
def runEngine (s : EngineState) (cooldown : ℚ) :
    List (Option Gesture × ℚ) → EngineState × List (ℚ × Gesture)
  | [] => (s, [])
  | (d, t) :: rest =>
      match (evaluate s d t cooldown).2 with
      | Decision.fire g =>
          ((runEngine (evaluate s d t cooldown).1 cooldown rest).1,
            (t, g) :: (runEngine (evaluate s d t cooldown).1 cooldown rest).2)
      | Decision.noOp => runEngine (evaluate s d t cooldown).1 cooldown rest

/-- The per-frame decision sequence of a run, in frame order. -/
def runDecisions (s : EngineState) (cooldown : ℚ) :
    List (Option Gesture × ℚ) → List Decision
  | [] => []
  | (d, t) :: rest =>
      (evaluate s d t cooldown).2 :: runDecisions (evaluate s d t cooldown).1 cooldown rest

/-- The invariant claimed by spec §3 for `AlertDecisionState`, stated of a
finished run from the initial state: if `active_gesture` is non-null then
some frame fired that very gesture, no later frame fired, and every frame
from the firing frame on (the firing frame included) detected that same
gesture. -/
def claimedActiveInvariant (cooldown : ℚ) (frames : List (Option Gesture × ℚ)) : Prop :=
  ∀ g : Gesture,
    (runEngine initState cooldown frames).1.active_gesture = some g →
    ∃ i, i < frames.length ∧
      (runDecisions initState cooldown frames).getD i Decision.noOp = Decision.fire g ∧
      (∀ j, i < j → j < frames.length →
        (runDecisions initState cooldown frames).getD j Decision.noOp = Decision.noOp) ∧
      ∀ j, i ≤ j → j < frames.length → (frames.getD j (none, 0)).1 = some g

/-- Outcome of the primary (Twilio SMS) attempt inside `send_alert`: either
`messages.create` plus the status fetch return normally (carrying the
fetched status string), or a `TwilioRestException` with an error code is
raised (the only exception type the source catches there). -/
inductive SmsOutcome
  | ack (status : String)
  | rejected (code : Int)
deriving DecidableEq

/-- Outcome of the WhatsApp fallback `messages.create` call: either it
returns normally (carrying whatever status Twilio reports, which the
source prints but never checks), or it raises (the source catches every
exception there). -/
inductive WaOutcome
  | ack (status : String)
  | failed
deriving DecidableEq

/-- Outcome of the local alert cue `play_alert_sound()`: it either returns
or raises at call time (e.g. `winsound.Beep` raising `RuntimeError`; the
try/except at source lines 10-21 guards only the import, not the call). -/
inductive CueOutcome
  | ok
  | fails
deriving DecidableEq

/-- One line appended to the alert log (source lines 163-167): gesture
label, city, channel label, success flag, screenshot path. -/
structure DeliveryRecord where
  gesture_name : String
  city : String
  method_used : String
  success : Bool
  screenshot_path : String
deriving DecidableEq

/-- Observable outcome of one `send_alert` call: how many SMS and WhatsApp
send attempts were made, whether the local cue was invoked, the log lines
appended by this call, and whether an exception escaped the call. -/
structure DispatchResult where
  smsAttempts : Nat
  waAttempts : Nat
  cueInvoked : Bool
  records : List DeliveryRecord
  raised : Bool
deriving DecidableEq

/-- Embedding of `send_alert` (source lines 116-167) over the collaborator
outcomes. `configured` is `client is not None` (source lines 49-53).
The attempt phase computes `(smsAttempts, waAttempts, success, method_used)`:
with a client, the SMS attempt either yields a fetched status (success iff
the status is "sent"/"delivered"/"queued"), or raises a Twilio error; on
error code 30004 exactly one WhatsApp attempt follows (success iff it does
not raise), on any other code the call fails with `method_used = "SMS"`;
without a client nothing is attempted and `method_used` keeps its initial
value "SMS". Then `play_alert_sound()` runs unguarded: if it raises, the
log append is never reached and the exception escapes; otherwise exactly
one record is appended. -/
def send_alert (configured : Bool) (sms : SmsOutcome) (wa : WaOutcome) (cue : CueOutcome)
    (gesture_name city screenshot_path : String) : DispatchResult :=
  let attempt : Nat × Nat × Bool × String :=
    if configured then
      match sms with
      | SmsOutcome.ack status =>
          (1, 0, status == "sent" || status == "delivered" || status == "queued", "SMS")
      | SmsOutcome.rejected code =>
          if code = 30004 then
            match wa with
            | WaOutcome.ack _ => (1, 1, true, "WhatsApp")
            | WaOutcome.failed => (1, 1, false, "WhatsApp")
          else
            (1, 0, false, "SMS")
    else
      (0, 0, false, "SMS")
  match cue with
  | CueOutcome.ok =>
      ⟨attempt.1, attempt.2.1, true,
        [⟨gesture_name, city, attempt.2.2.2, attempt.2.2.1, screenshot_path⟩], false⟩
  | CueOutcome.fails =>
      ⟨attempt.1, attempt.2.1, true, [], true⟩

theorem evaluate_none_eq (s : EngineState) (t cooldown : ℚ) :
    evaluate s none t cooldown = (⟨none, s.last_sms_time⟩, Decision.noOp) := rfl

theorem evaluate_fire_iff (s : EngineState) (g g' : Gesture) (t cooldown : ℚ) :
    (evaluate s (some g) t cooldown).2 = Decision.fire g' ↔
      g = g' ∧ some g ≠ s.active_gesture ∧ cooldown < t - s.last_sms_time := by
  by_cases h1 : some g = s.active_gesture
  · simp [evaluate, h1]
  · by_cases h2 : cooldown < t - s.last_sms_time
    · simp [evaluate, h1, h2]
    · simp [evaluate, h1, h2]

theorem evaluate_some_noOp_state (s : EngineState) (g : Gesture) (t cooldown : ℚ)
    (h : (evaluate s (some g) t cooldown).2 = Decision.noOp) :
    (evaluate s (some g) t cooldown).1 = s := by
  by_cases h1 : some g = s.active_gesture
  · simp [evaluate, h1]
  · by_cases h2 : cooldown < t - s.last_sms_time
    · simp [evaluate, h1, h2] at h
    · simp [evaluate, h1, h2]

theorem evaluate_fire_state (s : EngineState) (d : Option Gesture) (g : Gesture)
    (t cooldown : ℚ) (h : (evaluate s d t cooldown).2 = Decision.fire g) :
    d = some g ∧ (evaluate s d t cooldown).1 = ⟨some g, t⟩ ∧
      cooldown < t - s.last_sms_time := by
  cases d with
  | none => simp [evaluate] at h
  | some g' =>
      by_cases h1 : some g' = s.active_gesture
      · simp [evaluate, h1] at h
      · by_cases h2 : cooldown < t - s.last_sms_time
        · simp [evaluate, h1, h2] at h
          subst h
          simp [evaluate, h1, h2]
        · simp [evaluate, h1, h2] at h

theorem evaluate_noOp_last (s : EngineState) (d : Option Gesture) (t cooldown : ℚ)
    (h : (evaluate s d t cooldown).2 = Decision.noOp) :
    (evaluate s d t cooldown).1.last_sms_time = s.last_sms_time := by
  cases d with
  | none => rfl
  | some g => rw [evaluate_some_noOp_state s g t cooldown h]

theorem runEngine_nil (s : EngineState) (cooldown : ℚ) :
    runEngine s cooldown [] = (s, []) := rfl

theorem runEngine_cons_noOp (s : EngineState) (cooldown : ℚ) (d : Option Gesture) (t : ℚ)
    (rest : List (Option Gesture × ℚ)) (h : (evaluate s d t cooldown).2 = Decision.noOp) :
    runEngine s cooldown ((d, t) :: rest) =
      runEngine (evaluate s d t cooldown).1 cooldown rest := by
  simp [runEngine, h]

theorem runEngine_cons_fire (s : EngineState) (cooldown : ℚ) (d : Option Gesture) (t : ℚ)
    (rest : List (Option Gesture × ℚ)) (g : Gesture)
    (h : (evaluate s d t cooldown).2 = Decision.fire g) :
    runEngine s cooldown ((d, t) :: rest) =
      ((runEngine (evaluate s d t cooldown).1 cooldown rest).1,
        (t, g) :: (runEngine (evaluate s d t cooldown).1 cooldown rest).2) := by
  simp [runEngine, h]

theorem runEngine_append (cooldown : ℚ) (xs ys : List (Option Gesture × ℚ)) :
    ∀ s : EngineState,
      runEngine s cooldown (xs ++ ys) =
        ((runEngine (runEngine s cooldown xs).1 cooldown ys).1,
          (runEngine s cooldown xs).2 ++
            (runEngine (runEngine s cooldown xs).1 cooldown ys).2) := by
  induction xs with
  | nil => intro s; simp [runEngine_nil]
  | cons x rest ih =>
      intro s
      obtain ⟨d, t⟩ := x
      rcases hdec : (evaluate s d t cooldown).2 with _ | g
      · rw [List.cons_append, runEngine_cons_noOp s cooldown d t (rest ++ ys) hdec,
          runEngine_cons_noOp s cooldown d t rest hdec, ih]
      · rw [List.cons_append, runEngine_cons_fire s cooldown d t (rest ++ ys) g hdec,
          runEngine_cons_fire s cooldown d t rest g hdec, ih]
        simp

theorem runEngine_hold (cooldown : ℚ) (g : Gesture) :
    ∀ (ts : List ℚ) (s : EngineState), s.active_gesture = some g →
      runEngine s cooldown (ts.map fun t => (some g, t)) = (s, []) := by
  intro ts
  induction ts with
  | nil => intro s _; rfl
  | cons t rest ih =>
      intro s hs
      have hdec : (evaluate s (some g) t cooldown).2 = Decision.noOp := by
        simp [evaluate, hs.symm]
      have hstate : (evaluate s (some g) t cooldown).1 = s :=
        evaluate_some_noOp_state s g t cooldown hdec
      rw [List.map_cons, runEngine_cons_noOp s cooldown (some g) t _ hdec, hstate]
      exact ih s hs

theorem runEngine_blocked (cooldown : ℚ) (g g₀ : Gesture) (hne : g ≠ g₀) (last : ℚ) :
    ∀ ts : List ℚ, (∀ t ∈ ts, ¬ cooldown < t - last) →
      runEngine ⟨some g₀, last⟩ cooldown (ts.map fun t => (some g, t)) =
        (⟨some g₀, last⟩, []) := by
  intro ts
  induction ts with
  | nil => intro _; rfl
  | cons t rest ih =>
      intro hts
      have hne' : some g ≠ (⟨some g₀, last⟩ : EngineState).active_gesture := by
        simpa using hne
      have hdec : (evaluate ⟨some g₀, last⟩ (some g) t cooldown).2 = Decision.noOp := by
        simp [evaluate, hne', hts t (List.mem_cons_self t rest)]
      have hstate : (evaluate ⟨some g₀, last⟩ (some g) t cooldown).1 = ⟨some g₀, last⟩ :=
        evaluate_some_noOp_state _ g t cooldown hdec
      rw [List.map_cons, runEngine_cons_noOp _ cooldown (some g) t _ hdec, hstate]
      exact ih fun t' ht' => hts t' (List.mem_cons_of_mem t ht')

theorem fires_spacing (cooldown : ℚ) (hc : 0 ≤ cooldown) :
    ∀ (frames : List (Option Gesture × ℚ)) (s : EngineState),
      List.Pairwise (fun a b => cooldown < b.1 - a.1) (runEngine s cooldown frames).2 ∧
        ∀ f ∈ (runEngine s cooldown frames).2, s.last_sms_time + cooldown < f.1 := by
  intro frames
  induction frames with
  | nil => intro s; simp [runEngine_nil]
  | cons x rest ih =>
      intro s
      obtain ⟨d, t⟩ := x
      rcases hdec : (evaluate s d t cooldown).2 with _ | g
      · have hlast := evaluate_noOp_last s d t cooldown hdec
        rw [runEngine_cons_noOp s cooldown d t rest hdec]
        refine ⟨(ih _).1, fun f hf => ?_⟩
        have := (ih _).2 f hf
        rwa [hlast] at this
      · obtain ⟨hd, hstate, hcool⟩ := evaluate_fire_state s d g t cooldown hdec
        have hlast : (evaluate s d t cooldown).1.last_sms_time = t := by rw [hstate]
        rw [runEngine_cons_fire s cooldown d t rest g hdec]
        constructor
        · refine List.Pairwise.cons (fun f hf => ?_) (ih _).1
          have := (ih _).2 f hf
          rw [hlast] at this
          linarith
        · intro f hf
          rcases List.mem_cons.mp hf with hf | hf
          · rw [hf]
            simpa using by linarith
          · have := (ih _).2 f hf
            rw [hlast] at this
            linarith

/-- C1. At-most-one-fire-per-window: for every input sequence of per-frame
detected gestures and timestamps and every non-negative cooldown, the fires
of a run from the initial state are pairwise more than `cooldown` apart
(each later fire's timestamp exceeds each earlier fire's timestamp by more
than `cooldown`), so no two Fire decisions occur with timestamps less than
`cooldown` apart. -/
theorem at_most_one_fire_per_window (cooldown : ℚ) (frames : List (Option Gesture × ℚ))
    (hc : 0 ≤ cooldown) :
    List.Pairwise (fun a b => cooldown < b.1 - a.1)
      (runEngine initState cooldown frames).2 :=
  (fires_spacing cooldown hc frames initState).1

/-- Witness for C1 at cooldown 30 and a concrete two-fire frame sequence. -/
theorem at_most_one_fire_per_window_witness :
    (0 : ℚ) ≤ 30 ∧
      List.Pairwise (fun a b => (30 : ℚ) < b.1 - a.1)
        (runEngine initState 30
          [(some Gesture.KidnapAlert, 31), (some Gesture.CallPolice, 70)]).2 :=
  ⟨by norm_num,
    at_most_one_fire_per_window 30
      [(some Gesture.KidnapAlert, 31), (some Gesture.CallPolice, 70)] (by norm_num)⟩

/-- C5. Classifier totality and reference table: `classify_gesture` is a
total function on the 32 finger-state combinations and agrees with the
6-rule priority table of spec §4.1 (`classifyPerSpecTable`) on every one
of them. -/
theorem classify_total_matches_spec_table :
    ∀ f : FingerState, classify_gesture f = classifyPerSpecTable f := by
  decide

/-- C6 counterexample: on the finger state Thumb folded, Index and Middle
extended, Ring and Pinky folded, the classifier returns `TestingVSign`,
not `KidnapAlert` as the claim states (the KidnapAlert rule requires
Thumb extended and Middle folded, so it cannot match this state). -/
theorem overlap_counterexample :
    classify_gesture ⟨false, true, true, false, false⟩ = some Gesture.TestingVSign ∧
      classify_gesture ⟨false, true, true, false, false⟩ ≠ some Gesture.KidnapAlert := by
  decide

/-- C6 amended: the Thumb-folded V-sign state (Thumb folded, Index and
Middle extended, Ring and Pinky folded) classifies as `TestingVSign`;
moreover the KidnapAlert pattern and the TestingVSign pattern are disjoint
(rule 1 requires Middle folded, rule 4 requires Middle extended), so no
finger state classifying as `KidnapAlert` has Index and Middle both
extended with Ring and Pinky folded. -/
theorem overlap_resolves_to_testing_vsign :
    classify_gesture ⟨false, true, true, false, false⟩ = some Gesture.TestingVSign ∧
      ∀ f : FingerState, classify_gesture f = some Gesture.KidnapAlert →
        ¬ (f.index ∧ f.middle ∧ ¬ f.ring ∧ ¬ f.pinky) := by
  decide

/-- C2 counterexample: the source initializes `last_sms_time = 0.0` rather
than leaving it unset, so from the initial state a frame with a detected
gesture at `now = 1` with cooldown 30 does NOT fire (`1 - 0 > 30` is
false), and the spec's scenario — gestures
`[None, KidnapAlert, KidnapAlert, None, KidnapAlert]` at times
`[0,1,2,3,4]` with cooldown 30 — produces no fire at all instead of the
claimed single `Fire(KidnapAlert)` at `t = 1`. -/
theorem first_frame_claim_counterexample :
    (evaluate initState (some Gesture.KidnapAlert) 1 30).2 = Decision.noOp ∧
      (runEngine initState 30
        [(none, 0), (some Gesture.KidnapAlert, 1), (some Gesture.KidnapAlert, 2),
          (none, 3), (some Gesture.KidnapAlert, 4)]).2 = [] ∧
      (runEngine initState 30
        [(none, 0), (some Gesture.KidnapAlert, 1), (some Gesture.KidnapAlert, 2),
          (none, 3), (some Gesture.KidnapAlert, 4)]).2 ≠
        [((1 : ℚ), Gesture.KidnapAlert)] := by
  have h1 : ¬ ((30 : ℚ) < 1) := by norm_num
  have h2 : ¬ ((30 : ℚ) < 2) := by norm_num
  have h4 : ¬ ((30 : ℚ) < 4) := by norm_num
  refine ⟨?_, ?_, ?_⟩
  · simp [evaluate, initState, h1]
  · simp [runEngine, evaluate, initState, h1, h2, h4]
  · simp [runEngine, evaluate, initState, h1, h2, h4]

/-- C2 amended: `last_sms_time` is initialized to 0, so from the initial
state a frame with a detected gesture fires if and only if
`now > cooldown` (not regardless of `now`); in the spec's scenario
(times 0..4, cooldown 30) the engine therefore produces no fire at all. -/
theorem first_frame_fires_iff_cooldown_lt_now :
    (∀ (g : Gesture) (now cooldown : ℚ),
        (evaluate initState (some g) now cooldown).2 = Decision.fire g ↔ cooldown < now) ∧
      (runEngine initState 30
        [(none, 0), (some Gesture.KidnapAlert, 1), (some Gesture.KidnapAlert, 2),
          (none, 3), (some Gesture.KidnapAlert, 4)]).2 = [] := by
  constructor
  · intro g now cooldown
    rw [evaluate_fire_iff]
    simp [initState]
  · have h1 : ¬ ((30 : ℚ) < 1) := by norm_num
    have h2 : ¬ ((30 : ℚ) < 2) := by norm_num
    have h4 : ¬ ((30 : ℚ) < 4) := by norm_num
    simp [runEngine, evaluate, initState, h1, h2, h4]

/-- C3. Cooldown boundary and non-arming: with cooldown 30 and a fire of
`g₀` at `t = 0` (state `⟨some g₀, 0⟩`), a distinct gesture `g` detected on
frames at times all `≤ 30` produces no fire and leaves the state unchanged
(in particular `g` is never armed while blocked), and if those frames are
followed by a frame at `t' > 30` (and then any further frames with the
same gesture), exactly one fire occurs, at `t'`. -/
theorem cooldown_boundary_and_non_arming (g₀ g : Gesture) (hne : g ≠ g₀)
    (ts₁ : List ℚ) (h₁ : ∀ t ∈ ts₁, t ≤ 30) (t' : ℚ) (ht' : 30 < t') (ts₂ : List ℚ) :
    runEngine ⟨some g₀, 0⟩ 30 (ts₁.map fun t => (some g, t)) = (⟨some g₀, 0⟩, []) ∧
      (runEngine ⟨some g₀, 0⟩ 30
        ((ts₁ ++ t' :: ts₂).map fun t => (some g, t))).2 = [(t', g)] := by
  have hblocked :
      runEngine ⟨some g₀, 0⟩ 30 (ts₁.map fun t => (some g, t)) = (⟨some g₀, 0⟩, []) := by
    refine runEngine_blocked 30 g g₀ hne 0 ts₁ fun t ht => ?_
    have := h₁ t ht
    simp only [sub_zero, not_lt]
    linarith
  refine ⟨hblocked, ?_⟩
  rw [List.map_append, runEngine_append, hblocked]
  have hne' : some g ≠ (⟨some g₀, (0 : ℚ)⟩ : EngineState).active_gesture := by
    simpa using hne
  have hdec : (evaluate ⟨some g₀, 0⟩ (some g) t' 30).2 = Decision.fire g := by
    rw [evaluate_fire_iff]
    refine ⟨rfl, hne', ?_⟩
    simpa using ht'
  have hstate : (evaluate ⟨some g₀, 0⟩ (some g) t' 30).1 = ⟨some g, t'⟩ :=
    (evaluate_fire_state _ _ _ _ _ hdec).2.1
  simp only [List.map_cons]
  rw [runEngine_cons_fire _ 30 (some g) t' _ g hdec, hstate,
    runEngine_hold 30 g ts₂ ⟨some g, t'⟩ rfl]
  simp

/-- Witness for C3: fire of CallPolice at t = 0, KidnapAlert held on frames
at times 0, 15, 30 (all blocked, state unchanged), then 31, 35, 40:
exactly one fire, at t = 31. -/
theorem cooldown_boundary_and_non_arming_witness :
    Gesture.KidnapAlert ≠ Gesture.CallPolice ∧
      (∀ t ∈ [(0 : ℚ), 15, 30], t ≤ 30) ∧ (30 : ℚ) < 31 ∧
      runEngine ⟨some Gesture.CallPolice, 0⟩ 30
          ([(0 : ℚ), 15, 30].map fun t => (some Gesture.KidnapAlert, t)) =
        (⟨some Gesture.CallPolice, 0⟩, []) ∧
      (runEngine ⟨some Gesture.CallPolice, 0⟩ 30
          (([(0 : ℚ), 15, 30] ++ 31 :: [(35 : ℚ), 40]).map
            fun t => (some Gesture.KidnapAlert, t))).2 =
        [((31 : ℚ), Gesture.KidnapAlert)] := by
  have hmem : ∀ t ∈ [(0 : ℚ), 15, 30], t ≤ 30 := by
    intro t ht
    rcases List.mem_cons.mp ht with h | ht
    · rw [h]; norm_num
    rcases List.mem_cons.mp ht with h | ht
    · rw [h]; norm_num
    rcases List.mem_cons.mp ht with h | ht
    · rw [h]
    · simp at ht
  refine ⟨by decide, hmem, by norm_num, ?_⟩
  exact cooldown_boundary_and_non_arming Gesture.CallPolice Gesture.KidnapAlert
    (by decide) _ hmem 31 (by norm_num) _

theorem active_gesture_origin (cooldown : ℚ) :
    ∀ (frames : List (Option Gesture × ℚ)) (s : EngineState) (g : Gesture),
      (runEngine s cooldown frames).1.active_gesture = some g →
      (∃ pre now post,
          frames = pre ++ (some g, now) :: post ∧
          (evaluate (runEngine s cooldown pre).1 (some g) now cooldown).2 =
            Decision.fire g ∧
          (runEngine (evaluate (runEngine s cooldown pre).1 (some g) now cooldown).1
            cooldown post).2 = [] ∧
          ∀ f ∈ post, f.1 ≠ none) ∨
      (s.active_gesture = some g ∧ (runEngine s cooldown frames).2 = [] ∧
        ∀ f ∈ frames, f.1 ≠ none) := by
  intro frames
  induction frames with
  | nil =>
      intro s g h
      right
      exact ⟨h, rfl, by simp⟩
  | cons x rest ih =>
      intro s g h
      obtain ⟨d, t⟩ := x
      rcases hdec : (evaluate s d t cooldown).2 with _ | g'
      · -- this frame is a NoOp
        rw [runEngine_cons_noOp s cooldown d t rest hdec] at h
        rcases ih _ g h with hL | hR
        · obtain ⟨pre, now, post, hsplit, hfire, hpost, hnn⟩ := hL
          left
          refine ⟨(d, t) :: pre, now, post, by rw [hsplit, List.cons_append], ?_, ?_, hnn⟩
          · rw [runEngine_cons_noOp s cooldown d t pre hdec]
            exact hfire
          · rw [runEngine_cons_noOp s cooldown d t pre hdec]
            exact hpost
        · obtain ⟨hact, hfires, hnn⟩ := hR
          cases d with
          | none => simp [evaluate] at hact
          | some gd =>
              rw [evaluate_some_noOp_state s gd t cooldown hdec] at hact
              right
              refine ⟨hact, ?_, ?_⟩
              · rw [runEngine_cons_noOp s cooldown (some gd) t rest hdec]
                exact hfires
              · intro f hf
                rcases List.mem_cons.mp hf with hf | hf
                · rw [hf]; simp
                · exact hnn f hf
      · -- this frame fires g'
        obtain ⟨hd, hstate, hcool⟩ := evaluate_fire_state s d g' t cooldown hdec
        have hfst : (runEngine s cooldown ((d, t) :: rest)).1 =
            (runEngine (evaluate s d t cooldown).1 cooldown rest).1 := by
          rw [runEngine_cons_fire s cooldown d t rest g' hdec]
        rw [hfst] at h
        rcases ih _ g h with hL | hR
        · obtain ⟨pre, now, post, hsplit, hfire, hpost, hnn⟩ := hL
          left
          refine ⟨(d, t) :: pre, now, post, by rw [hsplit, List.cons_append], ?_, ?_, hnn⟩
          · have : (runEngine s cooldown ((d, t) :: pre)).1 =
                (runEngine (evaluate s d t cooldown).1 cooldown pre).1 := by
              rw [runEngine_cons_fire s cooldown d t pre g' hdec]
            rw [this]
            exact hfire
          · have : (runEngine s cooldown ((d, t) :: pre)).1 =
                (runEngine (evaluate s d t cooldown).1 cooldown pre).1 := by
              rw [runEngine_cons_fire s cooldown d t pre g' hdec]
            rw [this]
            exact hpost
        · obtain ⟨hact, hfires, hnn⟩ := hR
          rw [hstate] at hact
          have hg : g' = g := by simpa using hact
          subst hg
          subst hd
          left
          refine ⟨[], t, rest, rfl, ?_, ?_, hnn⟩
          · rw [runEngine_nil]
            exact hdec
          · rw [runEngine_nil]
            show (runEngine (evaluate s (some g') t cooldown).1 cooldown rest).2 = []
            exact hfires
          
/-- C4 counterexample: the invariant claimed in spec §3 fails on the run
with cooldown 30 and frames KidnapAlert at t = 31 then CallPolice at
t = 32: the fire at the first frame arms KidnapAlert, the second frame
detects a different gesture (so KidnapAlert HAS disappeared from the
frame) yet `active_gesture` is still `KidnapAlert`, because the source
only clears it on frames with no detected gesture at all. -/
theorem claimed_invariant_counterexample :
    ¬ claimedActiveInvariant 30
      [(some Gesture.KidnapAlert, 31), (some Gesture.CallPolice, 32)] := by
  intro h
  have h31 : (30 : ℚ) < 31 := by norm_num
  have h2 : ¬ ((30 : ℚ) < 32 - 31) := by norm_num
  have hrun : (runEngine initState 30
      [(some Gesture.KidnapAlert, 31), (some Gesture.CallPolice, 32)]).1.active_gesture =
      some Gesture.KidnapAlert := by
    simp [runEngine, evaluate, initState, h31, h2]
  obtain ⟨i, hi, hfire, hafter, hsince⟩ := h Gesture.KidnapAlert hrun
  have hdecs : runDecisions initState 30
      [(some Gesture.KidnapAlert, 31), (some Gesture.CallPolice, 32)] =
      [Decision.fire Gesture.KidnapAlert, Decision.noOp] := by
    simp [runDecisions, evaluate, initState, h31, h2]
  simp only [List.length_cons, List.length_nil] at hi
  interval_cases i
  · have hbad := hsince 1 (by omega) (by simp)
    simp at hbad
  · rw [hdecs] at hfire
    simp at hfire

/-- C4 amended: in every state reachable from the initial state,
`active_gesture` is non-null only if some frame fired exactly that
gesture, no later frame fired (so it is the most recent fire), and every
later frame had SOME detected gesture (not necessarily the fired one —
the source clears `active_gesture` only on frames with no detection, so
the armed gesture survives frames in which a different gesture is
detected). -/
theorem active_gesture_invariant_amended (cooldown : ℚ)
    (frames : List (Option Gesture × ℚ)) (g : Gesture)
    (h : (runEngine initState cooldown frames).1.active_gesture = some g) :
    ∃ pre now post,
      frames = pre ++ (some g, now) :: post ∧
      (evaluate (runEngine initState cooldown pre).1 (some g) now cooldown).2 =
        Decision.fire g ∧
      (runEngine (evaluate (runEngine initState cooldown pre).1 (some g) now cooldown).1
        cooldown post).2 = [] ∧
      ∀ f ∈ post, f.1 ≠ none := by
  rcases active_gesture_origin cooldown frames initState g h with hL | hR
  · exact hL
  · rw [initState] at hR
    simp at hR

/-- Witness for C4 amended: the single-frame run KidnapAlert at t = 31 with
cooldown 30 ends with `active_gesture = some KidnapAlert`, and the
decomposition exists. -/
theorem active_gesture_invariant_amended_witness :
    (runEngine initState 30 [(some Gesture.KidnapAlert, 31)]).1.active_gesture =
        some Gesture.KidnapAlert ∧
      ∃ pre now post,
        [((some Gesture.KidnapAlert : Option Gesture), (31 : ℚ))] =
          pre ++ (some Gesture.KidnapAlert, now) :: post ∧
        (evaluate (runEngine initState 30 pre).1 (some Gesture.KidnapAlert) now 30).2 =
          Decision.fire Gesture.KidnapAlert ∧
        (runEngine (evaluate (runEngine initState 30 pre).1 (some Gesture.KidnapAlert)
          now 30).1 30 post).2 = [] ∧
        ∀ f ∈ post, f.1 ≠ none := by
  have h31 : (30 : ℚ) < 31 := by norm_num
  have hrun : (runEngine initState 30 [(some Gesture.KidnapAlert, 31)]).1.active_gesture =
      some Gesture.KidnapAlert := by
    simp [runEngine, evaluate, initState, h31]
  exact ⟨hrun, active_gesture_invariant_amended 30 _ _ hrun⟩

/-- C7, behaviour at the failing input: with a configured client and a
successful SMS, a `play_alert_sound()` that raises at call time makes
`send_alert` append NO log record and lets the exception escape, while the
same call with a working cue appends exactly one record — the log append
is therefore not unconditional, contradicting the claim that no local
alert-cue failure can prevent it. -/
theorem dispatch_cue_failure_skips_log :
    (send_alert true (SmsOutcome.ack "sent") (WaOutcome.ack "queued") CueOutcome.fails
        "Kidnap Alert" "Hyderabad" "screenshots/s.jpg").records = [] ∧
      (send_alert true (SmsOutcome.ack "sent") (WaOutcome.ack "queued") CueOutcome.fails
        "Kidnap Alert" "Hyderabad" "screenshots/s.jpg").raised = true ∧
      (send_alert true (SmsOutcome.ack "sent") (WaOutcome.ack "queued") CueOutcome.ok
        "Kidnap Alert" "Hyderabad" "screenshots/s.jpg").records.length = 1 :=
  ⟨rfl, rfl, rfl⟩

/-- C8. Channel-fallback protocol: in every `send_alert` call at most one
SMS attempt and at most one WhatsApp attempt occur (so never a third
attempt or a retry), the WhatsApp channel is attempted exactly once if and
only if the client is configured and the SMS attempt raised the
blocked-primary Twilio error 30004, and every appended record's
`method_used` is "WhatsApp" exactly when that fallback was taken and
"SMS" otherwise. -/
theorem dispatch_fallback_protocol (configured : Bool) (sms : SmsOutcome) (wa : WaOutcome)
    (cue : CueOutcome) (gname city shot : String) :
    (send_alert configured sms wa cue gname city shot).smsAttempts ≤ 1 ∧
      (send_alert configured sms wa cue gname city shot).waAttempts ≤ 1 ∧
      ((send_alert configured sms wa cue gname city shot).waAttempts = 1 ↔
        configured = true ∧ sms = SmsOutcome.rejected 30004) ∧
      ∀ r ∈ (send_alert configured sms wa cue gname city shot).records,
        r.method_used =
          if configured = true ∧ sms = SmsOutcome.rejected 30004 then "WhatsApp"
          else "SMS" := by
  cases configured
  · cases cue <;> simp [send_alert]
  · rcases sms with st | code
    · cases cue <;> simp [send_alert]
    · by_cases hc : code = 30004
      · subst hc
        rcases wa with ws | _ <;> cases cue <;> simp [send_alert]
      · cases cue <;> simp [send_alert, hc]

/-- C9 counterexample: an unconfigured dispatch (no Twilio client) with a
working cue appends exactly one record, but its `channel_used` field is
the initial value "SMS" (source line 125), not "none" as the claim
states. -/
theorem unconfigured_dispatch_counterexample :
    (send_alert false (SmsOutcome.ack "sent") (WaOutcome.ack "queued") CueOutcome.ok
        "Kidnap Alert" "Hyderabad" "screenshots/u.jpg").records =
      [⟨"Kidnap Alert", "Hyderabad", "SMS", false, "screenshots/u.jpg"⟩] ∧
      ∀ r ∈ (send_alert false (SmsOutcome.ack "sent") (WaOutcome.ack "queued") CueOutcome.ok
        "Kidnap Alert" "Hyderabad" "screenshots/u.jpg").records,
        r.method_used ≠ "none" := by
  refine ⟨rfl, ?_⟩
  intro r hr
  simp [send_alert] at hr
  rw [hr]
  decide

/-- C9 amended: an unconfigured dispatch makes no SMS and no WhatsApp
attempt, still invokes the local alert cue, and — when the cue does not
raise — appends exactly one record with `channel_used = "SMS"` (the
variable's initial value) and `success = false`, for every primary and
secondary collaborator outcome. -/
theorem unconfigured_dispatch_amended (sms : SmsOutcome) (wa : WaOutcome)
    (gname city shot : String) :
    send_alert false sms wa CueOutcome.ok gname city shot =
      ⟨0, 0, true, [⟨gname, city, "SMS", false, shot⟩], false⟩ := rfl

/-- C10. Asymmetric success criteria: a configured dispatch whose SMS
attempt returns records success exactly when the fetched status is
"sent", "delivered" or "queued", whereas after the 30004 fallback a
WhatsApp attempt that returns without raising is recorded as success
whatever status string it reports. -/
theorem success_criteria_asymmetry (wa : WaOutcome) (st st' gname city shot : String) :
    (∀ r ∈ (send_alert true (SmsOutcome.ack st) wa CueOutcome.ok gname city shot).records,
        r.success = (st == "sent" || st == "delivered" || st == "queued")) ∧
      ∀ r ∈ (send_alert true (SmsOutcome.rejected 30004) (WaOutcome.ack st') CueOutcome.ok
        gname city shot).records, r.success = true := by
  constructor
  · intro r hr
    simp [send_alert] at hr
    rw [hr]
  · intro r hr
    simp [send_alert] at hr
    rw [hr]
